import Mathlib

/-!
Shallow embedding of the searchbiz Google Places scraper
(`src/scraper.py`, `src/data_processor.py`, `src/utils.py`, `src/config.py`).

JSON dictionaries coming back from the provider are modelled as structures
whose optional keys are `Option` fields (`none` = key absent).  Numeric JSON
values (ratings, coordinates, counts) are modelled as `ℚ`; Python strings as
Lean `String`.  The transport layer (the `requests` session) is modelled as an
oracle: a list of page responses for the pagination loop and a response value
per detail request.  Python exceptions that the source catches locally are
modelled by the corresponding constructor (`transportError`) or by the
non-`"OK"` status branch; the source functions under scrutiny never let an
exception escape, so their models are total functions.
-/

namespace SearchBiz

/-- A scalar cell of the flat output record produced by `extract_place_data`:
either a string (the empty string is the "unknown" sentinel) or a number
copied from the provider JSON. -/
inductive Val where
  | str (s : String)
  | num (q : ℚ)
deriving DecidableEq

/-- A geometry `location` object: a JSON dict with optional `lat`/`lng` keys. -/
structure Location where
  lat : Option ℚ
  lng : Option ℚ
deriving DecidableEq

/-- A `geometry` object.  `location = none` models the `location` key being
absent or mapped to the empty dict `\x7b\x7d` (Python treats both the same here:
`geometry.get('location', \x7b\x7d)` is falsy exactly in these two cases). -/
structure Geometry where
  location : Option Location
deriving DecidableEq

/-- A basic search result as consumed by `extract_place_data` and
`scrape_places`.  Per the provider contract (and the spec data model) every
basic result carries an identifier, which `scrape_places` reads with
`place['place_id']`; the remaining keys are optional. -/
structure BasicResult where
  name : Option String
  place_id : String
  formatted_address : Option String
  geometry : Option Geometry
  rating : Option ℚ
  user_ratings_total : Option ℚ
deriving DecidableEq

/-- A detail record (`data['result']` of the details endpoint).  A value of
this type models a truthy (non-empty) Python dict, every key optional. -/
structure DetailResult where
  name : Option String
  formatted_address : Option String
  geometry : Option Geometry
  rating : Option ℚ
  user_ratings_total : Option ℚ
  formatted_phone_number : Option String
  website : Option String
deriving DecidableEq

/-- The flat output dictionary built by `extract_place_data`. -/
structure OutputRecord where
  name : String
  place_id : String
  address : String
  latitude : Val
  longitude : Val
  rating : Val
  user_ratings_total : Val
  phone_number : String
  website : String
deriving DecidableEq

/-! ## utils.py -/

/-- `format_phone_number` from `src/utils.py`: empty input maps to `""`;
otherwise spaces, hyphens and parentheses are removed, except that a string
starting with `+` is returned verbatim.  `phone.startswith('+')` is modelled
by inspecting the head character. -/
def format_phone_number (phone : String) : String :=
  if phone = "" then ""
  else
    let cleaned := String.mk (phone.data.filter fun c =>
      !(c == ' ' || c == '-' || c == '(' || c == ')'))
    if phone.data.head? = some '+' then phone else cleaned

/-- Model of Python's Unicode-aware `str.isalnum`.  It is exact on the Basic
Latin and Latin-1 Supplement blocks (codepoints up to U+00FF): ASCII letters
and digits, the Latin-1 letters U+00C0..U+00FF minus the operators ×
(U+00D7) and ÷ (U+00F7), and the Latin-1 alphanumeric signs ª µ º ² ³ ¹ ¼ ½
¾.  Above U+00FF it covers the Latin Extended-A letters U+0100..U+017F
(which include İ and ı) and the Greek letters U+0391..U+03C9; codepoints
outside these blocks are conservatively classified non-alphanumeric, so
theorems quantifying over arbitrary text confine the input to the exactly
modelled range up to U+00FF. -/
def pythonIsAlnum (c : Char) : Bool :=
  decide ((97 ≤ c.toNat ∧ c.toNat ≤ 122) ∨ (65 ≤ c.toNat ∧ c.toNat ≤ 90) ∨
    (48 ≤ c.toNat ∧ c.toNat ≤ 57) ∨
    (192 ≤ c.toNat ∧ c.toNat ≤ 255 ∧ c.toNat ≠ 215 ∧ c.toNat ≠ 247) ∨
    c.toNat = 170 ∨ c.toNat = 181 ∨ c.toNat = 186 ∨
    c.toNat = 178 ∨ c.toNat = 179 ∨ c.toNat = 185 ∨
    (188 ≤ c.toNat ∧ c.toNat ≤ 190) ∨
    (256 ≤ c.toNat ∧ c.toNat ≤ 383) ∨
    (913 ≤ c.toNat ∧ c.toNat ≤ 969 ∧ c.toNat ≠ 930))

/-- Model of Python's `str.lower` on a single character, returning the
character sequence it lower-cases to.  It is exact on the Basic Latin and
Latin-1 blocks — `A`..`Z` and the Latin-1 capitals U+00C0..U+00DE (except ×)
map 32 code points up, everything else in that range is already fixed by
`str.lower` — and on İ (U+0130), whose Python lower case is the
two-character sequence `i` followed by the combining dot above U+0307 (a
non-alphanumeric character).  Other codepoints above U+00FF are outside the
exactly modelled fragment and are left fixed. -/
def pythonLower (c : Char) : List Char :=
  if c.toNat = 304 then [Char.ofNat 105, Char.ofNat 775]
  else if 65 ≤ c.toNat ∧ c.toNat ≤ 90 then [Char.ofNat (c.toNat + 32)]
  else if 192 ≤ c.toNat ∧ c.toNat ≤ 222 ∧ c.toNat ≠ 215 then
    [Char.ofNat (c.toNat + 32)]
  else [c]

/-- `sanitize_filename` from `src/utils.py`: replace each space, comma and
slash by an underscore, keep only characters that satisfy `isalnum` or are
`_`/`-`, then lower-case the result (character-sequence-valued, since
Python's `str.lower` can map one character to two, as it does for İ). -/
def sanitize_filename (text : String) : String :=
  let replaced := text.data.map fun c =>
    if c = ' ' ∨ c = ',' ∨ c = '/' then '_' else c
  let sanitized := replaced.filter fun c => pythonIsAlnum c || c == '_' || c == '-'
  String.mk (sanitized.flatMap pythonLower)

/-! ## data_processor.py -/

/-- Rendering of an optional numeric JSON value into an output cell, as done
by `place_basic.get('rating', '')` and `location.get('lat', '')`: the number
when the key is present, the empty-string sentinel otherwise. -/
def numOrEmpty (o : Option ℚ) : Val :=
  match o with
  | some q => Val.num q
  | none => Val.str ""

/-- `extract_place_data` from `src/data_processor.py`.  The basic-only record
is built first (coordinates via `geometry.get('location', ...)`), then, when a
detail record is present, name/address/rating/count/phone/website are updated
with `place_details.get(key, current)` semantics, and the coordinates are
overwritten from the detail geometry only when its location object is truthy. -/
def extract_place_data (place_basic : BasicResult)
    (place_details : Option DetailResult) : OutputRecord :=
  let loc := place_basic.geometry.bind Geometry.location
  let extracted : OutputRecord :=
    { name := place_basic.name.getD ""
      place_id := place_basic.place_id
      address := place_basic.formatted_address.getD ""
      latitude := numOrEmpty (loc.bind Location.lat)
      longitude := numOrEmpty (loc.bind Location.lng)
      rating := numOrEmpty place_basic.rating
      user_ratings_total := numOrEmpty place_basic.user_ratings_total
      phone_number := ""
      website := "" }
  match place_details with
  | none => extracted
  | some d =>
    let updated : OutputRecord :=
      { extracted with
        name := d.name.getD extracted.name
        address := d.formatted_address.getD extracted.address
        rating := (d.rating.map Val.num).getD extracted.rating
        user_ratings_total :=
          (d.user_ratings_total.map Val.num).getD extracted.user_ratings_total
        phone_number := format_phone_number (d.formatted_phone_number.getD "")
        website := d.website.getD "" }
    match d.geometry.bind Geometry.location with
    | none => updated
    | some details_location =>
      { updated with
        latitude := (details_location.lat.map Val.num).getD updated.latitude
        longitude := (details_location.lng.map Val.num).getD updated.longitude }

/-- Outcome of one attempted file write (the body of the `try` block in
`save_to_json` / `save_to_csv`): Python raising inside the write is the
`failure` case, which the source converts to a `False` return. -/
inductive WriteOutcome where
  | success
  | failure
deriving DecidableEq

/-- `save_to_json` from `src/data_processor.py`: returns `True` exactly when
the write succeeds; an exception is caught and becomes `False`. -/
def save_to_json (_data : List OutputRecord) (write : WriteOutcome) : Bool :=
  match write with
  | .success => true
  | .failure => false

/-- `save_to_csv` from `src/data_processor.py`: empty data returns `False`
without attempting a write; otherwise returns `True` exactly when the write
succeeds, with exceptions caught and turned into `False`. -/
def save_to_csv (data : List OutputRecord) (write : WriteOutcome) : Bool :=
  if data.isEmpty then false
  else
    match write with
    | .success => true
    | .failure => false

/-- Assignment `m[k] = v` on a Python dict modelled as an ordered
association list: overwrite in place when the key exists, append otherwise. -/
def dictSet (m : List (String × Bool)) (k : String) (v : Bool) :
    List (String × Bool) :=
  if m.any fun p => p.1 == k then
    m.map fun p => if p.1 == k then (k, v) else p
  else m ++ [(k, v)]

/-- `export_data` from `src/data_processor.py`, with the two file-system
write outcomes supplied as oracles.  Each requested format is attempted in
order and its per-format success recorded; an unsupported format records
`False`. -/
def export_data (data : List OutputRecord) (formats : List String)
    (json_write csv_write : WriteOutcome) : List (String × Bool) :=
  formats.foldl
    (fun results fmt =>
      if fmt = "json" then dictSet results "json" (save_to_json data json_write)
      else if fmt = "csv" then dictSet results "csv" (save_to_csv data csv_write)
      else dictSet results fmt false)
    []

/-! ## config.py and the search request parameters -/

/-- `DEFAULT_RADIUS` from `src/config.py`. -/
def DEFAULT_RADIUS : ℤ := 50000

/-- The provider's documented maximum search radius in meters (the `max
50000` of the `search_places` docstring and the spec's "provider maximum"). -/
def PROVIDER_MAX_RADIUS : ℤ := 50000

/-- The query parameters `search_places` builds for one page request
(`src/scraper.py` lines 42-51): API key, the free-text query
`"<place_type> in <location>"`, the radius argument, and the continuation
token when one is being followed. -/
structure SearchParams where
  key : String
  query : String
  radius : ℤ
  pagetoken : Option String
deriving DecidableEq

/-- Construction of the request parameters in the body of the
`search_places` loop.  The radius argument is passed through verbatim. -/
def build_search_params (api_key place_type location : String) (radius : ℤ)
    (next_page_token : Option String) : SearchParams :=
  { key := api_key
    query := place_type ++ " in " ++ location
    radius := radius
    pagetoken := next_page_token }

/-! ## scraper.py -/

/-- One observed outcome of a page request in the `search_places` loop:
either a transport-level failure (`requests.RequestException`, including a
non-2xx HTTP status raised by `raise_for_status`), or a JSON body with its
`status` string, `results` array and optional `next_page_token`. -/
inductive PageResponse where
  | transportError
  | page (status : String) (results : List BasicResult)
      (next_page_token : Option String)

/-- The `while True` pagination loop of `search_places`, driven by the script
of page responses the transport will return (one entry per request issued).
A non-`"OK"` status breaks out of the loop with the accumulator: for
`ZERO_RESULTS` directly, for any other status via the raised exception that
the enclosing `except` catches.  A transport failure breaks likewise.  An
`"OK"` page extends the accumulator and the loop continues only when a
continuation token is present.  An exhausted script also yields the
accumulator (all claims quantify over scripts that cover the run). -/
def search_places_aux : List PageResponse → List BasicResult → List BasicResult
  | [], places => places
  | resp :: rest, places =>
    match resp with
    | .transportError => places
    | .page status results next_page_token =>
      if status ≠ "OK" then places
      else
        let places2 := places ++ results
        match next_page_token with
        | none => places2
        | some _ => search_places_aux rest places2

/-- `search_places` from `src/scraper.py`: run the pagination loop from an
empty accumulator against the given response script. -/
def search_places (responses : List PageResponse) : List BasicResult :=
  search_places_aux responses []

/-- One observed outcome of a detail request: transport failure or a JSON
body with its `status` string and optional `result` object. -/
inductive DetailResponse where
  | transportError
  | response (status : String) (result : Option DetailResult)

/-- `get_place_details` from `src/scraper.py`, applied to the single response
its one request obtains: non-`"OK"` status and transport failure both yield
`None`; on `"OK"` the optional `result` object is returned as-is. -/
def get_place_details (resp : DetailResponse) : Option DetailResult :=
  match resp with
  | .transportError => none
  | .response status result => if status ≠ "OK" then none else result

/-- The per-place enrichment loop of `scrape_places`: for each basic result,
optionally fetch details (one detail request per place, its response given by
the oracle keyed on `place['place_id']`), then normalize and append. -/
def scrape_loop (fetch_details : Bool)
    (detail_responses : String → DetailResponse) :
    List BasicResult → List OutputRecord
  | [] => []
  | place :: rest =>
    let place_details :=
      if fetch_details then get_place_details (detail_responses place.place_id)
      else none
    extract_place_data place place_details ::
      scrape_loop fetch_details detail_responses rest

/-- `scrape_places` from `src/scraper.py`, starting from the basic-result
sequence the search produced: empty search results short-circuit to the empty
list, otherwise each basic result is enriched and normalized in order. -/
def scrape_places (places_basic : List BasicResult) (fetch_details : Bool)
    (detail_responses : String → DetailResponse) : List OutputRecord :=
  if places_basic.isEmpty then []
  else scrape_loop fetch_details detail_responses places_basic

/-! ## Sample data used by witnesses -/

/-- A concrete basic search result. -/
def sampleBasic : BasicResult :=
  { name := some "Basic Cafe"
    place_id := "pid1"
    formatted_address := some "2 Side St"
    geometry := some { location := some { lat := some 3, lng := some 4 } }
    rating := some 4
    user_ratings_total := some 10 }

/-- A concrete detail record with every key present. -/
def sampleDetail : DetailResult :=
  { name := some "Cafe Central"
    formatted_address := some "1 Main St"
    geometry := some { location := some { lat := some 1, lng := some 2 } }
    rating := some (9 / 2)
    user_ratings_total := some 120
    formatted_phone_number := some "+33 1 23"
    website := some "cafe.example" }

/-- A concrete detail record whose `name` key is present but empty. -/
def emptyNameDetail : DetailResult :=
  { name := some ""
    formatted_address := none
    geometry := none
    rating := none
    user_ratings_total := none
    formatted_phone_number := none
    website := none }

/-- A concrete output record. -/
def sampleRecord : OutputRecord := extract_place_data sampleBasic none

/-! ## Helper lemmas -/

/-- The enrichment loop is a `map` over the basic results. -/
theorem scrape_loop_eq_map (fetch_details : Bool)
    (detail_responses : String → DetailResponse) (l : List BasicResult) :
    scrape_loop fetch_details detail_responses l =
      l.map fun place => extract_place_data place
        (if fetch_details then get_place_details (detail_responses place.place_id)
         else none) := by
  induction l with
  | nil => rfl
  | cons p rest ih => simp [scrape_loop, ih]

/-- `scrape_places` is the same `map` (the empty short-circuit agrees with
mapping over the empty list). -/
theorem scrape_places_eq_map (places_basic : List BasicResult)
    (fetch_details : Bool) (detail_responses : String → DetailResponse) :
    scrape_places places_basic fetch_details detail_responses =
      places_basic.map fun place => extract_place_data place
        (if fetch_details then get_place_details (detail_responses place.place_id)
         else none) := by
  cases places_basic with
  | nil => rfl
  | cons p rest => simp [scrape_places, scrape_loop_eq_map]

/-- A successful page of the response script: status `"OK"`, its results, and
a continuation token. -/
def okPage (pr : List BasicResult × String) : PageResponse :=
  PageResponse.page "OK" pr.1 (some pr.2)

/-- Running the pagination loop through a block of successful tokened pages
appends all their results to the accumulator. -/
theorem search_places_aux_ok_pages (good : List (List BasicResult × String))
    (rest : List PageResponse) (acc : List BasicResult) :
    search_places_aux (good.map okPage ++ rest) acc =
      search_places_aux rest (acc ++ (good.map Prod.fst).flatten) := by
  induction good generalizing acc with
  | nil => simp
  | cons pr g ih =>
    simp only [List.map_cons, List.cons_append, search_places_aux, okPage]
    rw [if_neg (by simp)]
    simp only [List.append_eq]
    rw [ih]
    simp [List.append_assoc]

/-- `Char.ofNat` round-trips on codepoints below the surrogate range. -/
theorem charToNat_ofNat_of_lt (n : Nat) (h : n < 55296) :
    (Char.ofNat n).toNat = n := by
  have hv : n.isValidChar := Or.inl h
  rw [Char.ofNat, dif_pos hv]
  rfl

/-- Lower-casing an alphanumeric character of the exactly modelled Latin-1
range yields a single alphanumeric character that lower-casing fixes. -/
theorem pythonLower_alnum (c : Char) (hle : c.toNat ≤ 255)
    (h : pythonIsAlnum c = true) :
    ∃ d, pythonLower c = [d] ∧ pythonIsAlnum d = true ∧ pythonLower d = [d] := by
  have h0 : c.toNat ≠ 304 := by omega
  by_cases h1 : 65 ≤ c.toNat ∧ c.toNat ≤ 90
  · have ht : (Char.ofNat (c.toNat + 32)).toNat = c.toNat + 32 :=
      charToNat_ofNat_of_lt _ (by omega)
    refine ⟨Char.ofNat (c.toNat + 32), ?_, ?_, ?_⟩
    · simp only [pythonLower]
      rw [if_neg h0, if_pos h1]
    · simp only [pythonIsAlnum, ht, decide_eq_true_eq]
      omega
    · simp only [pythonLower, ht]
      rw [if_neg (by omega), if_neg (by omega), if_neg (by omega)]
  · by_cases h2 : 192 ≤ c.toNat ∧ c.toNat ≤ 222 ∧ c.toNat ≠ 215
    · have ht : (Char.ofNat (c.toNat + 32)).toNat = c.toNat + 32 :=
        charToNat_ofNat_of_lt _ (by omega)
      refine ⟨Char.ofNat (c.toNat + 32), ?_, ?_, ?_⟩
      · simp only [pythonLower]
        rw [if_neg h0, if_neg h1, if_pos h2]
      · simp only [pythonIsAlnum, ht, decide_eq_true_eq]
        omega
      · simp only [pythonLower, ht]
        rw [if_neg (by omega), if_neg (by omega), if_neg (by omega)]
    · have hl : pythonLower c = [c] := by
        simp only [pythonLower]
        rw [if_neg h0, if_neg h1, if_neg h2]
      exact ⟨c, hl, h, hl⟩

/-! ## Claim theorems -/

/-- C1: for every basic-result sequence of length N, `scrape_places` produces
exactly N output records, in the same order — the i-th output record is the
normalization of the i-th basic result — whether or not detail fetching is
enabled; an absent detail result (any oracle answer that `get_place_details`
maps to `none`) leaves the record as the basic-only normalization instead of
dropping it. -/
theorem scrape_places_preserves_length_and_order
    (places_basic : List BasicResult) (fetch_details : Bool)
    (detail_responses : String → DetailResponse) :
    (scrape_places places_basic fetch_details detail_responses).length
        = places_basic.length ∧
    scrape_places places_basic fetch_details detail_responses =
      places_basic.map fun place => extract_place_data place
        (if fetch_details then get_place_details (detail_responses place.place_id)
         else none) := by
  refine ⟨?_, scrape_places_eq_map places_basic fetch_details detail_responses⟩
  rw [scrape_places_eq_map]
  exact List.length_map places_basic _

/-- C3: when some page response has a status other than `"OK"` and
`"ZERO_RESULTS"`, or is a transport failure, `search_places` stops there and
returns exactly the results accumulated from the preceding successful pages
(no exception escapes: the model is a total function into lists). -/
theorem search_places_truncates_on_failure
    (good : List (List BasicResult × String)) (status : String)
    (results : List BasicResult) (next_page_token : Option String)
    (rest : List PageResponse) (hok : status ≠ "OK")
    (_hzero : status ≠ "ZERO_RESULTS") :
    search_places (good.map okPage ++
        PageResponse.page status results next_page_token :: rest) =
      (good.map Prod.fst).flatten ∧
    search_places (good.map okPage ++ PageResponse.transportError :: rest) =
      (good.map Prod.fst).flatten := by
  constructor <;>
    · unfold search_places
      rw [search_places_aux_ok_pages]
      simp [search_places_aux, hok]

/-- Witness for C3 at a concrete one-good-page script followed by a
`REQUEST_DENIED` page. -/
theorem search_places_truncates_on_failure_witness :
    search_places ([([sampleBasic], "tok")].map okPage ++
        PageResponse.page "REQUEST_DENIED" [] none :: []) = [sampleBasic] := by
  have h := search_places_truncates_on_failure [([sampleBasic], "tok")]
    "REQUEST_DENIED" [] none [] (by decide) (by decide)
  simpa using h.1

/-- C4 counterexample: a radius argument of 60000 exceeding the provider
maximum of 50000 is sent as 60000, not clamped. -/
theorem search_radius_counterexample :
    (build_search_params "key" "restaurant" "Paris" 60000 none).radius
        = 60000 ∧
    ¬(build_search_params "key" "restaurant" "Paris" 60000 none).radius
        ≤ PROVIDER_MAX_RADIUS := by
  decide

/-- C4 (amended): the radius value sent in the provider request equals the
radius argument verbatim — no clamping is performed anywhere; only the
default value of the argument (`DEFAULT_RADIUS`, used by the CLI) equals the
provider maximum of 50000 meters. -/
theorem search_radius_sent_verbatim (api_key place_type location : String)
    (radius : ℤ) (next_page_token : Option String) :
    (build_search_params api_key place_type location radius
        next_page_token).radius = radius ∧
    DEFAULT_RADIUS = PROVIDER_MAX_RADIUS :=
  ⟨rfl, rfl⟩

/-- C5: `format_phone_number` returns any `+`-prefixed string verbatim and
otherwise removes every space, hyphen and parenthesis; in particular
`"+1 (555) 123-4567"` maps to itself and `"(555) 123-4567"` to
`"5551234567"`. -/
theorem format_phone_number_plus_and_strip (phone : String) :
    (phone.data.head? = some '+' → format_phone_number phone = phone) ∧
    (phone.data.head? ≠ some '+' →
      format_phone_number phone = String.mk (phone.data.filter fun c =>
        !(c == ' ' || c == '-' || c == '(' || c == ')'))) ∧
    format_phone_number "+1 (555) 123-4567" = "+1 (555) 123-4567" ∧
    format_phone_number "(555) 123-4567" = "5551234567" := by
  refine ⟨?_, ?_, by decide, by decide⟩
  · intro h
    have hne : phone ≠ "" := by
      intro he
      subst he
      exact absurd h (by decide)
    simp [format_phone_number, hne, h]
  · intro h
    by_cases he : phone = ""
    · subst he
      decide
    · simp [format_phone_number, he, h]

/-- Witness for C5: both hypotheses discharged at concrete inputs. -/
theorem format_phone_number_plus_and_strip_witness :
    format_phone_number "+33 1 23-45" = "+33 1 23-45" ∧
    format_phone_number "06 12-34" = "061234" := by
  constructor
  · exact (format_phone_number_plus_and_strip "+33 1 23-45").1 (by decide)
  · have h := (format_phone_number_plus_and_strip "06 12-34").2.1 (by decide)
    exact h.trans (by decide)

/-- C7: `get_place_details` makes a single request attempt (its model
consumes exactly one response) and returns a detail record only when that
response has status `"OK"`; any non-`"OK"` status and any transport failure
yield `none` without raising. -/
theorem get_place_details_single_attempt_policy (resp : DetailResponse) :
    (∀ d : DetailResult, get_place_details resp = some d →
        resp = DetailResponse.response "OK" (some d)) ∧
    (∀ (status : String) (result : Option DetailResult), status ≠ "OK" →
        get_place_details (DetailResponse.response status result) = none) ∧
    get_place_details DetailResponse.transportError = none := by
  refine ⟨?_, ?_, rfl⟩
  · intro d h
    cases resp with
    | transportError => exact absurd h (by simp [get_place_details])
    | response status result =>
      by_cases hs : status = "OK"
      · subst hs
        have h' : result = some d := by simpa [get_place_details] using h
        rw [h']
      · simp [get_place_details, hs] at h
  · intro status result hs
    simp [get_place_details, hs]

/-- Witness for C7 at a concrete rejected response. -/
theorem get_place_details_single_attempt_policy_witness :
    get_place_details
        (DetailResponse.response "INVALID_REQUEST" (some sampleDetail)) = none :=
  (get_place_details_single_attempt_policy
      (DetailResponse.response "INVALID_REQUEST" (some sampleDetail))).2.1
    "INVALID_REQUEST" (some sampleDetail) (by decide)

/-- C8: a `ZERO_RESULTS` status terminates pagination normally, returning the
accumulated results — the empty sequence when it is the first response. -/
theorem search_places_zero_results (good : List (List BasicResult × String))
    (results : List BasicResult) (next_page_token : Option String)
    (rest : List PageResponse) :
    search_places
        (PageResponse.page "ZERO_RESULTS" results next_page_token :: rest)
      = [] ∧
    search_places (good.map okPage ++
        PageResponse.page "ZERO_RESULTS" results next_page_token :: rest) =
      (good.map Prod.fst).flatten := by
  constructor
  · simp [search_places, search_places_aux]
  · unfold search_places
    rw [search_places_aux_ok_pages]
    simp [search_places_aux]

/-- C9: `export_data` on non-empty data and formats json+csv returns a
per-format success map; a failing write for one format maps that format to
`false` while the other is still attempted and maps to `true`, and nothing is
raised (the model is a total function). -/
theorem export_data_per_format_independence (data : List OutputRecord)
    (h : data ≠ []) :
    export_data data ["json", "csv"] WriteOutcome.success WriteOutcome.failure =
      [("json", true), ("csv", false)] ∧
    export_data data ["json", "csv"] WriteOutcome.failure WriteOutcome.success =
      [("json", false), ("csv", true)] ∧
    export_data data ["json", "csv"] WriteOutcome.success WriteOutcome.success =
      [("json", true), ("csv", true)] := by
  have he : data.isEmpty = false := by
    cases data with
    | nil => exact absurd rfl h
    | cons a l => rfl
  refine ⟨?_, ?_, ?_⟩ <;>
    simp [export_data, dictSet, save_to_json, save_to_csv, he]

/-- Witness for C9 at a concrete one-record data set. -/
theorem export_data_per_format_independence_witness :
    export_data [sampleRecord] ["json", "csv"]
        WriteOutcome.success WriteOutcome.failure =
      [("json", true), ("csv", false)] :=
  (export_data_per_format_independence [sampleRecord]
    (List.cons_ne_nil _ _)).1

/-- C2: merge precedence of `extract_place_data` — a present detail record's
name/address/rating/rating-count override the basic values; phone and website
come only from the detail record; coordinates are overridden by the detail
geometry exactly when it supplies a non-empty location object, and retained
from the basic record otherwise; with no detail record every field is the
basic record's value unchanged. -/
theorem extract_place_data_merge_precedence (b : BasicResult) (d : DetailResult)
    (n a : String) (r u : ℚ) (details_location : Location) (la lo : ℚ)
    (hn : d.name = some n) (ha : d.formatted_address = some a)
    (hr : d.rating = some r) (hu : d.user_ratings_total = some u) :
    ((extract_place_data b (some d)).name = n ∧
     (extract_place_data b (some d)).address = a ∧
     (extract_place_data b (some d)).rating = Val.num r ∧
     (extract_place_data b (some d)).user_ratings_total = Val.num u) ∧
    ((extract_place_data b (some d)).phone_number =
        format_phone_number (d.formatted_phone_number.getD "") ∧
     (extract_place_data b (some d)).website = d.website.getD "") ∧
    (d.geometry.bind Geometry.location = some details_location →
      details_location.lat = some la → details_location.lng = some lo →
      (extract_place_data b (some d)).latitude = Val.num la ∧
      (extract_place_data b (some d)).longitude = Val.num lo) ∧
    (d.geometry.bind Geometry.location = none →
      (extract_place_data b (some d)).latitude =
          numOrEmpty ((b.geometry.bind Geometry.location).bind Location.lat) ∧
      (extract_place_data b (some d)).longitude =
          numOrEmpty ((b.geometry.bind Geometry.location).bind Location.lng)) ∧
    extract_place_data b none =
      { name := b.name.getD ""
        place_id := b.place_id
        address := b.formatted_address.getD ""
        latitude := numOrEmpty ((b.geometry.bind Geometry.location).bind Location.lat)
        longitude := numOrEmpty ((b.geometry.bind Geometry.location).bind Location.lng)
        rating := numOrEmpty b.rating
        user_ratings_total := numOrEmpty b.user_ratings_total
        phone_number := ""
        website := "" } := by
  refine ⟨⟨?_, ?_, ?_, ?_⟩, ⟨?_, ?_⟩, ?_, ?_, rfl⟩
  · cases hg : d.geometry.bind Geometry.location <;>
      simp [extract_place_data, hn, hg]
  · cases hg : d.geometry.bind Geometry.location <;>
      simp [extract_place_data, ha, hg]
  · cases hg : d.geometry.bind Geometry.location <;>
      simp [extract_place_data, hr, hg]
  · cases hg : d.geometry.bind Geometry.location <;>
      simp [extract_place_data, hu, hg]
  · cases hg : d.geometry.bind Geometry.location <;>
      simp [extract_place_data, hg]
  · cases hg : d.geometry.bind Geometry.location <;>
      simp [extract_place_data, hg]
  · intro hg hla hlo
    simp [extract_place_data, hg, hla, hlo]
  · intro hg
    simp [extract_place_data, hg]

/-- Witness for C2 at concrete basic and detail records: the detail name and
coordinates supersede the basic ones. -/
theorem extract_place_data_merge_precedence_witness :
    (extract_place_data sampleBasic (some sampleDetail)).name = "Cafe Central" ∧
    (extract_place_data sampleBasic (some sampleDetail)).latitude = Val.num 1 := by
  have h := extract_place_data_merge_precedence sampleBasic sampleDetail
    "Cafe Central" "1 Main St" (9 / 2) 120
    { lat := some 1, lng := some 2 } 1 2 rfl rfl rfl rfl
  exact ⟨h.1.1, (h.2.2.1 rfl rfl rfl).1⟩

/-- C10: in `extract_place_data`, falling back to the basic value happens only
when the detail key is absent — a detail key present with an empty (falsy)
value, such as an empty name or a zero rating, replaces the basic value in
the output, whatever the basic record contains. -/
theorem extract_place_data_present_key_overrides (b : BasicResult)
    (d : DetailResult) :
    (d.name = some "" → (extract_place_data b (some d)).name = "") ∧
    (d.formatted_address = some "" →
        (extract_place_data b (some d)).address = "") ∧
    (d.rating = some 0 → (extract_place_data b (some d)).rating = Val.num 0) ∧
    (d.user_ratings_total = some 0 →
        (extract_place_data b (some d)).user_ratings_total = Val.num 0) ∧
    (d.website = some "" → (extract_place_data b (some d)).website = "") ∧
    (d.name = none → (extract_place_data b (some d)).name = b.name.getD "") := by
  refine ⟨?_, ?_, ?_, ?_, ?_, ?_⟩ <;> intro h <;>
    cases hg : d.geometry.bind Geometry.location <;>
      simp [extract_place_data, h, hg]

/-- Witness for C10: a detail record whose `name` key holds the empty string
wipes out a non-empty basic name. -/
theorem extract_place_data_present_key_overrides_witness :
    (extract_place_data sampleBasic (some emptyNameDetail)).name = "" :=
  (extract_place_data_present_key_overrides sampleBasic emptyNameDetail).1 rfl

/-- C6 counterexample: `sanitize_filename "São Paulo, BR"` evaluates to
`"são_paulo__br"` — the accented letter is alphanumeric and survives, and the
comma-space pair contributes two underscores — not to the claimed
`"so_paulo_br"`.  Moreover the universal charset part of the claim fails
outside Latin-1: `sanitize_filename "İ"` is `i` followed by the combining dot
above U+0307, a character that is neither alphanumeric nor `_` nor `-`. -/
theorem sanitize_filename_counterexample :
    (sanitize_filename "São Paulo, BR" = "são_paulo__br" ∧
     sanitize_filename "São Paulo, BR" ≠ "so_paulo_br") ∧
    (sanitize_filename "İ" = String.mk ['i', '̇'] ∧
     '̇' ∈ (sanitize_filename "İ").data ∧
     pythonIsAlnum '̇' = false ∧ '̇' ≠ '_' ∧ '̇' ≠ '-') := by
  decide

/-- C6 (amended): for input text confined to the Basic Latin and Latin-1
range — where the model of the source language's `isalnum`/`lower` is exact —
every character of the sanitized filename is an underscore, a hyphen, or a
lower-cased alphanumeric character (alphanumeric in the Unicode sense, so
accented letters are retained); spaces, commas and slashes are each replaced
by their own underscore and the remaining non-alphanumeric characters are
stripped.  Category `"gas station"` yields `"gas_station"`, while location
`"São Paulo, BR"` yields `"são_paulo__br"`.  The range restriction is
necessary: lower-casing İ emits the non-alphanumeric combining dot U+0307,
as the counterexample records. -/
theorem sanitize_filename_charset (text : String)
    (hrange : ∀ c ∈ text.data, c.toNat ≤ 255) :
    (∀ c ∈ (sanitize_filename text).data,
      (pythonIsAlnum c = true ∧ pythonLower c = [c]) ∨ c = '_' ∨ c = '-') ∧
    sanitize_filename "gas station" = "gas_station" ∧
    sanitize_filename "São Paulo, BR" = "são_paulo__br" := by
  refine ⟨?_, by decide, by decide⟩
  intro c hc
  have hdata : (sanitize_filename text).data =
      ((text.data.map fun c =>
          if c = ' ' ∨ c = ',' ∨ c = '/' then '_' else c).filter
        fun c => pythonIsAlnum c || c == '_' || c == '-').flatMap pythonLower := rfl
  rw [hdata] at hc
  rcases List.mem_flatMap.mp hc with ⟨b, hb, hcb⟩
  have hble : b.toNat ≤ 255 := by
    have hbmem := (List.mem_filter.mp hb).1
    rcases List.mem_map.mp hbmem with ⟨a, ha, hab⟩
    by_cases hsp : a = ' ' ∨ a = ',' ∨ a = '/'
    · rw [if_pos hsp] at hab
      rw [← hab]
      decide
    · rw [if_neg hsp] at hab
      rw [← hab]
      exact hrange a ha
  have hp := (List.mem_filter.mp hb).2
  have hp' : (pythonIsAlnum b = true ∨ b = '_') ∨ b = '-' := by
    simpa using hp
  rcases hp' with (hal | rfl) | rfl
  · rcases pythonLower_alnum b hble hal with ⟨d, hd, hdal, hdl⟩
    rw [hd] at hcb
    rcases List.mem_singleton.mp hcb with rfl
    exact Or.inl ⟨hdal, hdl⟩
  · have hl : pythonLower '_' = ['_'] := by decide
    rw [hl] at hcb
    exact Or.inr (Or.inl (List.mem_singleton.mp hcb))
  · have hl : pythonLower '-' = ['-'] := by decide
    rw [hl] at hcb
    exact Or.inr (Or.inr (List.mem_singleton.mp hcb))

/-- Witness for C6 (amended): the character class fact instantiated at a
character of a concrete sanitized filename, with the range hypothesis
discharged. -/
theorem sanitize_filename_charset_witness :
    (pythonIsAlnum 'g' = true ∧ pythonLower 'g' = ['g']) ∨ 'g' = '_' ∨ 'g' = '-' :=
  (sanitize_filename_charset "gas station" (by decide)).1 'g' (by decide)

end SearchBiz
